import Mathlib

set_option maxRecDepth 100000
set_option maxHeartbeats 2000000

/-!
Shallow embedding of the extraction and build-result parsing engine of the
spring-integration-mcp server (TypeScript source `index.ts`).

Text processing is modelled over `List Char`.  Each regular-expression
template of the source is modelled by an explicit scanner that mirrors the
JavaScript regex semantics (leftmost match, greedy / lazy quantifiers with
backtracking, `exec` with the global flag advancing `lastIndex`) for the
exact pattern appearing in the source.  Subprocess invocation is modelled by
an `ExecResult` input carrying the captured stdout / stderr of the build
tool: `ok` for a normal exit of `execAsync`, `failed` for the rejected
promise (non-zero exit, timeout, or failure to start).  JSON results are
modelled by the inductive `JVal`, listing object fields in the insertion
order of the source.  Counts are modelled as exact naturals (JavaScript
`parseInt` differs only beyond 2^53).
-/

abbrev Cs := List Char

/-- The `"` character (written via its code point). -/
def dqC : Char := Char.ofNat 34

/-- The `'` character. -/
def sqC : Char := Char.ofNat 39

/-- The `\` character. -/
def bslashC : Char := Char.ofNat 92

/-- The left curly bracket character. -/
def lbC : Char := Char.ofNat 123

/-- The right curly bracket character. -/
def rbC : Char := Char.ofNat 125

def ofChars (cs : Cs) : String := String.mk cs

/-- Does `pat` occur in `s` starting at index `i`? -/
def strAt (s pat : Cs) (i : Nat) : Bool := pat.isPrefixOf (s.drop i)

def charAt (s : Cs) (i : Nat) : Option Char := (s.drop i).head?

/-- Length of the maximal run of characters satisfying `p` starting at `i`. -/
def runFrom (p : Char → Bool) (s : Cs) (i : Nat) : Nat :=
  ((s.drop i).takeWhile p).length

/-- The slice `s[i..j)`. -/
def sliceCs (s : Cs) (i j : Nat) : Cs := (s.drop i).take (j - i)

/-- JavaScript `slice(-n)`: the last `n` characters (all of `s` when shorter). -/
def takeLastCs (n : Nat) (s : Cs) : Cs := s.drop (s.length - n)

/-- Smallest `j ≥ i` at which `pat` occurs in `s` (fuel-bounded scan). -/
def findSubstrFrom (s pat : Cs) (i fuel : Nat) : Option Nat :=
  match fuel with
  | 0 => none
  | fuel + 1 =>
    if strAt s pat i then some i
    else if s.length ≤ i then none
    else findSubstrFrom s pat (i + 1) fuel

/-- JavaScript `indexOf` (as an `Option`). -/
def firstIdxOf (s pat : Cs) : Option Nat := findSubstrFrom s pat 0 (s.length + 1)

/-- JavaScript `String.prototype.includes`. -/
def hasSubstr (s pat : String) : Bool := decide (pat.data <:+: s.data)

/-- The JavaScript whitespace class (`\s`, also used by `trim`). -/
def isJsWs (c : Char) : Bool :=
  c = Char.ofNat 9 || c = Char.ofNat 10 || c = Char.ofNat 11 ||
  c = Char.ofNat 12 || c = Char.ofNat 13 || c = ' ' ||
  c = Char.ofNat 160 || c = Char.ofNat 0x1680 ||
  (0x2000 ≤ c.toNat && c.toNat ≤ 0x200a) ||
  c = Char.ofNat 0x2028 || c = Char.ofNat 0x2029 || c = Char.ofNat 0x202f ||
  c = Char.ofNat 0x205f || c = Char.ofNat 0x3000 || c = Char.ofNat 0xfeff

/-- JavaScript `String.prototype.trim`. -/
def jsTrim (s : String) : String :=
  ofChars (((s.data.dropWhile isJsWs).reverse.dropWhile isJsWs).reverse)

/-- The JavaScript word-character class `\w`. -/
def isWordChar (c : Char) : Bool :=
  (('a' ≤ c && c ≤ 'z') || ('A' ≤ c && c ≤ 'Z') || ('0' ≤ c && c ≤ '9') || c = '_')

def isAsciiLetter (c : Char) : Bool :=
  ('a' ≤ c && c ≤ 'z') || ('A' ≤ c && c ≤ 'Z')

/-- Numeric value of a digit string (JavaScript `parseInt`, exact). -/
def natOfDigits (ds : Cs) : Nat := ds.foldl (fun a c => a * 10 + (c.toNat - 48)) 0

/-- JSON values as produced by the server (object fields in insertion order). -/
inductive JVal where
  | str (s : String)
  | num (n : Nat)
  | bool (b : Bool)
  | null
  | arr (xs : List JVal)
  | obj (fields : List (String × JVal))

/-- Field access on a JSON object result. -/
def JVal.getField (j : JVal) (k : String) : Option JVal :=
  match j with
  | .obj fields => fields.lookup k
  | _ => none

/-- A located source file: its path and full text content. -/
structure JavaFile where
  path : String
  content : String

/-- The captured result of `execAsync`: `ok` on normal exit, `failed` when the
promise rejected (non-zero exit, timeout, or failure to start), carrying the
partial stdout / stderr captured on the error object. -/
inductive ExecResult where
  | ok (stdout stderr : String)
  | failed (stdout stderr : String)

/-- `const DEFAULT_WORKSPACE = process.env.MCP_WORKSPACE || "/workspace"`,
with the environment value as an explicit parameter (`||` treats the empty
string as falsy). -/
def DEFAULT_WORKSPACE (env : Option String) : String :=
  match env with
  | some v => if v = "" then "/workspace" else v
  | none => "/workspace"

/-- The test `/^[A-Za-z]:\\/` of `resolveProjectPath`. -/
def hasDrivePre (s : String) : Bool :=
  match s.data with
  | a :: b :: c :: _ => isAsciiLetter a && b = ':' && c = bslashC
  | _ => false

/-- `resolveProjectPath` from the source: absent / blank input and
Windows-drive paths fall back to the default workspace. -/
def resolveProjectPath (env : Option String) (input : Option String) : String :=
  match input with
  | none => DEFAULT_WORKSPACE env
  | some s =>
    if jsTrim s = "" then DEFAULT_WORKSPACE env
    else if hasDrivePre s then DEFAULT_WORKSPACE env
    else s

def expectLit (s lit : Cs) (i : Nat) : Option Nat :=
  if strAt s lit i then some (i + lit.length) else none

/-- Maximal (greedy) `\d+` starting at `i`; fails when empty. -/
def readDigits (s : Cs) (i : Nat) : Option (Cs × Nat) :=
  let d := (s.drop i).takeWhile Char.isDigit
  if d.length = 0 then none else some (d, i + d.length)

/-- One attempt at index `i` of the summary-line regex
`/Tests run: (\d+), Failures: (\d+), Errors: (\d+), Skipped: (\d+)/`.
Each greedy `\d+` is followed by a non-digit literal, so the maximal digit
run is the only candidate and no backtracking can occur. -/
def matchSummaryAt (s : Cs) (i : Nat) : Option (Cs × Cs × Cs × Cs) :=
  (expectLit s "Tests run: ".data i).bind fun i1 =>
  (readDigits s i1).bind fun p1 =>
  (expectLit s ", Failures: ".data p1.2).bind fun i2 =>
  (readDigits s i2).bind fun p2 =>
  (expectLit s ", Errors: ".data p2.2).bind fun i3 =>
  (readDigits s i3).bind fun p3 =>
  (expectLit s ", Skipped: ".data p3.2).bind fun i4 =>
  (readDigits s i4).map fun p4 => (p1.1, p2.1, p3.1, p4.1)

def firstSummaryFrom (s : Cs) : Nat → Nat → Option (Cs × Cs × Cs × Cs)
  | _, 0 => none
  | i, fuel + 1 =>
    match matchSummaryAt s i with
    | some r => some r
    | none => if s.length ≤ i then none else firstSummaryFrom s (i + 1) fuel

/-- Leftmost match of the summary-line regex (JavaScript `String.match`
without the global flag). -/
def firstSummaryMatch (s : Cs) : Option (Cs × Cs × Cs × Cs) :=
  firstSummaryFrom s 0 (s.length + 1)

/-- Backtracking step for `\s+` at end of input: the largest offset
`k ∈ [1, bound]` with a non-newline character at `base + k`. -/
def lastNonNlOff (s : Cs) (base : Nat) : Nat → Option Nat
  | 0 => none
  | j + 1 =>
    match charAt s (base + (j + 1)) with
    | some c => if c = '\n' then lastNonNlOff s base j else some (j + 1)
    | none => lastNonNlOff s base j

/-- One attempt at index `i` of the error-line regex `/\[ERROR\]\s+(.+)/`:
greedy `\s+`, then `(.+) ` takes the maximal non-newline run.  When the
whitespace run reaches end of input, `\s+` backtracks until `.+` can take at
least one (non-newline) character. -/
def matchErrorAt (s : Cs) (i : Nat) : Option (Cs × Nat) :=
  (expectLit s "[ERROR]".data i).bind fun b =>
  let w := runFrom isJsWs s b
  if w = 0 then none
  else if b + w < s.length then
    let cap := runFrom (fun c => c ≠ '\n') s (b + w)
    some (sliceCs s (b + w) (b + w + cap), b + w + cap)
  else
    match lastNonNlOff s b (w - 1) with
    | none => none
    | some k =>
      let cap := runFrom (fun c => c ≠ '\n') s (b + k)
      some (sliceCs s (b + k) (b + k + cap), b + k + cap)

def errorMatchesAux (s : Cs) : Nat → Nat → List Cs
  | _, 0 => []
  | i, fuel + 1 =>
    match findSubstrFrom s "[ERROR]".data i (s.length + 1) with
    | none => []
    | some j =>
      match matchErrorAt s j with
      | some (cap, e) => cap :: errorMatchesAux s e fuel
      | none => errorMatchesAux s (j + 1) fuel

/-- All matches of `/\[ERROR\]\s+(.+)/g` (repeated `exec`, `lastIndex`
advancing past each match), in source order. -/
def errorMatches (s : Cs) : List Cs := errorMatchesAux s 0 (s.length + 2)

/-- The lookahead `(?=\n\n|\nTests run:)` of the failure-block regex. -/
def failLookAt (s : Cs) (e : Nat) : Bool :=
  (charAt s e == some '\n') &&
  ((charAt s (e + 1) == some '\n') || strAt s "Tests run:".data (e + 1))

def findLookFrom (s : Cs) : Nat → Nat → Option Nat
  | _, 0 => none
  | i, fuel + 1 =>
    if failLookAt s i then some i
    else if s.length ≤ i then none
    else findLookFrom s (i + 1) fuel

/-- Backtracking over the greedy `[^>]*` of the failure-block regex: try the
newline positions inside the non-`>` run from last to first; after each, the
lazy `([\s\S]*?)` grows to the nearest lookahead position. -/
def tryNlOff (s : Cs) (b : Nat) : Nat → Option (Cs × Nat)
  | 0 => none
  | p + 1 =>
    match charAt s (b + p) with
    | some c =>
      if c = '\n' then
        match findLookFrom s (b + p + 1) (s.length + 1) with
        | some e => some (sliceCs s (b + p + 1) e, e)
        | none => tryNlOff s b p
      else tryNlOff s b p
    | none => tryNlOff s b p

/-- One attempt at index `i` of the failure-block regex
`/<<< FAILURE![^>]*\n([\s\S]*?)(?=\n\n|\nTests run:)/`. -/
def matchFailureAt (s : Cs) (i : Nat) : Option (Cs × Nat) :=
  (expectLit s "<<< FAILURE!".data i).bind fun b =>
  tryNlOff s b (runFrom (fun c => c ≠ '>') s b)

def failureMatchesAux (s : Cs) : Nat → Nat → List Cs
  | _, 0 => []
  | i, fuel + 1 =>
    match findSubstrFrom s "<<< FAILURE!".data i (s.length + 1) with
    | none => []
    | some j =>
      match matchFailureAt s j with
      | some (cap, e) => cap :: failureMatchesAux s e fuel
      | none => failureMatchesAux s (j + 1) fuel

/-- All matches of the failure-block regex (global `exec` loop). -/
def failureMatches (s : Cs) : List Cs := failureMatchesAux s 0 (s.length + 2)

/-- The fixed success sentinel of `validateMavenCompile`. -/
def buildSuccessSentinel : String := "BUILD SUCCESS"

/-- The compile subprocess timeout (`timeout: 180000`). -/
def compileTimeoutMs : Nat := 180000

/-- The test subprocess timeout (`timeout: 120000`). -/
def testTimeoutMs : Nat := 120000

/-- `validateMavenCompile`: classify a compile run.  On normal exit the
sentinel is sought in the captured stdout; on failure the error-line matches
of the captured stderr are collected (first 10). -/
def validateMavenCompile (res : ExecResult) : JVal :=
  match res with
  | .ok stdout stderr =>
    let success := hasSubstr stdout buildSuccessSentinel
    let errors := if success then [] else errorMatches stderr.data
    .obj [("success", .bool success),
          ("message", .str (if success then "✓ BUILD SUCCESS" else "✗ BUILD FAILED")),
          ("errors", .arr ((errors.take 10).map fun m => .str (ofChars m))),
          ("recommendation", .str (if success then "Proceed to writing tests"
            else "Fix compilation errors before writing tests"))]
  | .failed _ stderr =>
    .obj [("success", .bool false),
          ("message", .str "✗ BUILD FAILED"),
          ("errors", .arr (((errorMatches stderr.data).take 10).map fun m => .str (ofChars m))),
          ("recommendation", .str "Fix compilation errors before writing tests")]

def zeroCs : Cs := ['0']

/-- The parsing part of `runTestCheckpoint`, applied to the combined
`stdout + stderr` of a normal exit.  `success` compares the captured digit
strings with the string literal `"0"` (`failures === "0" && errors === "0"`);
the numeric fields apply `parseInt` to the same captures. -/
def parseTestOutput (output : Cs) : JVal :=
  match firstSummaryMatch output with
  | none =>
    .obj [("success", .bool false),
          ("message", .str "Could not parse test results"),
          ("output", .str (ofChars (takeLastCs 500 output)))]
  | some (run, failures, errors, skipped) =>
    let success := failures == zeroCs && errors == zeroCs
    let failureMessages :=
      if success then []
      else (failureMatches output).map fun m => (jsTrim (ofChars m)).data.take 200
    .obj [("success", .bool success),
          ("testsRun", .num (natOfDigits run)),
          ("failures", .num (natOfDigits failures)),
          ("errors", .num (natOfDigits errors)),
          ("skipped", .num (natOfDigits skipped)),
          ("failureMessages", .arr ((failureMessages.take 5).map fun m => .str (ofChars m))),
          ("recommendation", .str (if success then "✓ Tests passed - continue to next batch"
            else "✗ Fix failures before continuing"))]

/-- `runTestCheckpoint` as a function of the subprocess result. -/
def runTestCheckpoint (res : ExecResult) : JVal :=
  match res with
  | .ok stdout stderr => parseTestOutput (stdout ++ stderr).data
  | .failed stdout stderr =>
    .obj [("success", .bool false),
          ("message", .str "Test execution failed"),
          ("output", .str (ofChars (takeLastCs 1000 (stdout ++ stderr).data)))]

/-- Concrete stderr/stdout text with 15 error-marker lines. -/
def errLines15 : String :=
  "[ERROR] e1\n[ERROR] e2\n[ERROR] e3\n[ERROR] e4\n[ERROR] e5\n[ERROR] e6\n[ERROR] e7\n[ERROR] e8\n[ERROR] e9\n[ERROR] e10\n[ERROR] e11\n[ERROR] e12\n[ERROR] e13\n[ERROR] e14\n[ERROR] e15"

/-- Generic global regex loop (repeated `exec` with `lastIndex`): the match
attempt runs at each occurrence of the literal `seed` the pattern starts
with; a failed attempt resumes the scan one position further on. -/
def globalMatchesAux {A : Type} (s seed : Cs) (matchAt : Cs → Nat → Option (A × Nat)) :
    Nat → Nat → List A
  | _, 0 => []
  | i, fuel + 1 =>
    match findSubstrFrom s seed i (s.length + 1) with
    | none => []
    | some j =>
      match matchAt s j with
      | some (cap, e) => cap :: globalMatchesAux s seed matchAt e fuel
      | none => globalMatchesAux s seed matchAt (j + 1) fuel

def globalMatches {A : Type} (s seed : Cs) (matchAt : Cs → Nat → Option (A × Nat)) : List A :=
  globalMatchesAux s seed matchAt 0 (s.length + 2)

/-- One attempt of `/@Value\(["'](\$\{[^}]+\})["']\)/` at `i`; the greedy
`[^}]+` run admits no backtracking because it is followed by the excluded
character. -/
def matchValueAt (s : Cs) (i : Nat) : Option (Cs × Nat) :=
  (expectLit s "@Value(".data i).bind fun b =>
  (charAt s b).bind fun q1 =>
  if q1 = dqC || q1 = sqC then
    (expectLit s ['$', lbC] (b + 1)).bind fun d =>
    let r := runFrom (fun c => c ≠ rbC) s d
    if r = 0 then none
    else
      match charAt s (d + r), charAt s (d + r + 1), charAt s (d + r + 2) with
      | some cb, some q2, some cp =>
        if cb = rbC && (q2 = dqC || q2 = sqC) && cp = ')' then
          some (sliceCs s (b + 1) (d + r + 1), d + r + 3)
        else none
      | _, _, _ => none
  else none

def valueMatches (s : Cs) : List Cs := globalMatches s "@Value(".data matchValueAt

/-- Greedy `.*` followed by a literal right brace: the largest offset
`t ≤ bound` at which the brace sits (characters before it in the run are
non-newline by construction). -/
def lastRbOff (s : Cs) (base : Nat) : Nat → Option Nat
  | 0 => (charAt s base).bind fun c => if c = rbC then some 0 else none
  | t + 1 =>
    match charAt s (base + t + 1) with
    | some c => if c = rbC then some (t + 1) else lastRbOff s base t
    | none => lastRbOff s base t

/-- One attempt of the inner replace regex `/\$\{([^:}]+).*\}/` at `p`,
returning the capture and the match end. -/
def propReplaceAt (m : Cs) (p : Nat) : Option (Cs × Nat) :=
  (expectLit m ['$', lbC] p).bind fun d =>
  let cl := runFrom (fun c => c ≠ ':' && c ≠ rbC) m d
  if cl = 0 then none
  else
    let e := d + cl
    let mrun := runFrom (fun c => c ≠ '\n') m e
    match lastRbOff m e mrun with
    | none => none
    | some t => some (sliceCs m d (d + cl), e + t + 1)

def propNameAux (m : Cs) : Nat → Nat → Option (Cs × Nat × Nat)
  | _, 0 => none
  | p, fuel + 1 =>
    match propReplaceAt m p with
    | some (c, e) => some (c, p, e)
    | none => if m.length ≤ p then none else propNameAux m (p + 1) fuel

/-- `match[1].replace(/\$\{([^:}]+).*\}/, "$1")`: replace the first match of
the inner regex by its capture (the unreplaced string when there is none). -/
def propNameOf (m : Cs) : Cs :=
  match propNameAux m 0 (m.length + 1) with
  | none => m
  | some (c, p, e) => m.take p ++ c ++ m.drop e

/-- The deduplicated (`Set`, insertion-ordered) property keys of all
`@Value` matches across the production sources. -/
def discoveredProps (files : List String) : List Cs :=
  files.foldl (fun acc content =>
    (valueMatches content.data).foldl (fun a m =>
      let p := propNameOf m
      if a.contains p then a else a ++ [p]) acc) []

/-- `findMissingProperties`: the located production-source contents plus the
test-configuration file's content (`none` when reading it failed). -/
def findMissingProperties (files : List String) (testProps : Option String) : JVal :=
  let properties := discoveredProps files
  match testProps with
  | none =>
    .obj [("found", .bool true),
          ("totalProperties", .num properties.length),
          ("missingProperties", .arr (properties.map fun p => .str (ofChars p))),
          ("testPropertiesFileExists", .bool false),
          ("action", .str "Create src/test/resources/application-test.properties with these properties")]
  | some tp =>
    let missingProps := properties.filter fun p => !(hasSubstr tp (ofChars p))
    .obj [("found", .bool true),
          ("totalProperties", .num properties.length),
          ("missingProperties", .arr (missingProps.map fun p => .str (ofChars p))),
          ("testPropertiesFileExists", .bool true),
          ("action", .str (if missingProps.length > 0 then
              "Add these " ++ toString missingProps.length ++ " properties to application-test.properties"
            else "All properties are defined in test config ✓"))]

/-- One attempt of the tail `private\s+(\w+)\s+(\w+);` of the `@ManyToOne`
regex at `j`. -/
def declM2OAt (s : Cs) (j : Nat) : Option ((Cs × Cs) × Nat) :=
  (expectLit s "private".data j).bind fun b =>
  let w1 := runFrom isJsWs s b
  if w1 = 0 then none else
  let t := runFrom isWordChar s (b + w1)
  if t = 0 then none else
  let w2 := runFrom isJsWs s (b + w1 + t)
  if w2 = 0 then none else
  let f := runFrom isWordChar s (b + w1 + t + w2)
  if f = 0 then none else
  match charAt s (b + w1 + t + w2 + f) with
  | some c =>
    if c = ';' then
      some ((sliceCs s (b + w1) (b + w1 + t),
             sliceCs s (b + w1 + t + w2) (b + w1 + t + w2 + f)),
            b + w1 + t + w2 + f + 1)
    else none
  | none => none

def findDeclFrom {A : Type} (declAt : Cs → Nat → Option (A × Nat)) (s : Cs) :
    Nat → Nat → Option (A × Nat)
  | _, 0 => none
  | k, fuel + 1 =>
    match declAt s k with
    | some r => some r
    | none => if s.length ≤ k then none else findDeclFrom declAt s (k + 1) fuel

/-- `/@ManyToOne[\s\S]*?private\s+(\w+)\s+(\w+);/` at the occurrence `j` of
the annotation: the lazy filler stops at the earliest following declaration. -/
def matchManyToOneAt (s : Cs) (j : Nat) : Option ((Cs × Cs) × Nat) :=
  (expectLit s "@ManyToOne".data j).bind fun b =>
  findDeclFrom declM2OAt s b (s.length + 1)

def manyToOneMatches (s : Cs) : List (Cs × Cs) :=
  globalMatches s "@ManyToOne".data matchManyToOneAt

/-- One attempt of the tail `private\s+(?:List|Set)<(\w+)>\s+(\w+);` of the
`@OneToMany` regex at `j`. -/
def declO2MAt (s : Cs) (j : Nat) : Option ((Cs × Cs) × Nat) :=
  (expectLit s "private".data j).bind fun b =>
  let w1 := runFrom isJsWs s b
  if w1 = 0 then none else
  let p := b + w1
  match (expectLit s "List<".data p).orElse (fun _ => expectLit s "Set<".data p) with
  | none => none
  | some g =>
    let t := runFrom isWordChar s g
    if t = 0 then none else
    match charAt s (g + t) with
    | some c =>
      if c = '>' then
        let w2 := runFrom isJsWs s (g + t + 1)
        if w2 = 0 then none else
        let f := runFrom isWordChar s (g + t + 1 + w2)
        if f = 0 then none else
        match charAt s (g + t + 1 + w2 + f) with
        | some c2 =>
          if c2 = ';' then
            some ((sliceCs s g (g + t),
                   sliceCs s (g + t + 1 + w2) (g + t + 1 + w2 + f)),
                  g + t + 1 + w2 + f + 1)
          else none
        | none => none
      else none
    | none => none

def matchOneToManyAt (s : Cs) (j : Nat) : Option ((Cs × Cs) × Nat) :=
  (expectLit s "@OneToMany".data j).bind fun b =>
  findDeclFrom declO2MAt s b (s.length + 1)

def oneToManyMatches (s : Cs) : List (Cs × Cs) :=
  globalMatches s "@OneToMany".data matchOneToManyAt

/-- One attempt of `/extends\s+(\w+)/` at `j`. -/
def extendsAt (s : Cs) (j : Nat) : Option (Cs × Nat) :=
  (expectLit s "extends".data j).bind fun b =>
  let w := runFrom isJsWs s b
  if w = 0 then none else
  let t := runFrom isWordChar s (b + w)
  if t = 0 then none else some (sliceCs s (b + w) (b + w + t), b + w + t)

def extendsFrom (s : Cs) : Nat → Nat → Option Cs
  | _, 0 => none
  | i, fuel + 1 =>
    match extendsAt s i with
    | some (cap, _) => some cap
    | none => if s.length ≤ i then none else extendsFrom s (i + 1) fuel

/-- Leftmost match of `/extends\s+(\w+)/`. -/
def extendsMatch (s : Cs) : Option Cs := extendsFrom s 0 (s.length + 1)

/-- `investigateEntityRelationships` for the located entity files. -/
def investigateEntityRelationships (entityFiles : List JavaFile) (entityName : String) : JVal :=
  match entityFiles with
  | [] => .obj [("found", .bool false),
                ("message", .str ("Entity " ++ entityName ++ " not found"))]
  | file :: _ =>
    let content := file.content.data
    let m2o := manyToOneMatches content
    let o2m := oneToManyMatches content
    let hasDiscriminator := hasSubstr file.content "@DiscriminatorColumn"
    .obj [("found", .bool true),
          ("entity", .str entityName),
          ("inheritance", match extendsMatch content with
            | some t => .str (ofChars t)
            | none => .null),
          ("discriminator", .bool hasDiscriminator),
          ("relationships", .obj [
            ("manyToOne", .arr (m2o.map fun tf =>
              JVal.obj [("type", .str (ofChars tf.1)),
                        ("field", .str (ofChars tf.2)),
                        ("required", .bool (!(hasSubstr file.content
                          (ofChars ("@JoinColumn.*".data ++ tf.2 ++ ".*nullable.*true".data)))))])),
            ("oneToMany", .arr (o2m.map fun tf =>
              JVal.obj [("type", .str (ofChars tf.1)), ("field", .str (ofChars tf.2))])),
            ("oneToOne", .arr []),
            ("manyToMany", .arr [])]),
          ("creationOrder", .arr (
            (m2o.map fun tf => JVal.str ("1. Create " ++ ofChars tf.1 ++ " first (required dependency)")) ++
            [JVal.str ("2. Create " ++ entityName)] ++
            (o2m.map fun tf => JVal.str ("3. Create " ++ ofChars tf.1 ++ " (children)")))),
          ("warning", if hasDiscriminator then
              .str ("⚠️ This entity uses inheritance - use specific subclass, not base " ++ entityName ++ " class")
            else .null)]

/-- `[...new Set(xs)]`: deduplicate preserving first-seen order. -/
def dedupCs (l : List Cs) : List Cs :=
  l.foldl (fun a c => if a.contains c then a else a ++ [c]) []

/-- `path.basename` (posix): the component after the last slash. -/
def jsBasename (p : String) : String :=
  ofChars ((p.data.reverse.takeWhile (fun c => c ≠ '/')).reverse)

/-- `path.basename(p, ".java")`: basename with the extension stripped. -/
def jsBasenameNoExt (p : String) : String :=
  let b := (p.data.reverse.takeWhile (fun c => c ≠ '/')).reverse
  if ".java".data.isSuffixOf b then ofChars (b.take (b.length - 5)) else ofChars b

/-- The quoted word argument `['"]([\w_]+)['"]\)` shared by the two JWT claim
regexes, starting at the opening quote. -/
def innerClaimAt (s : Cs) (p : Nat) : Option (Cs × Nat) :=
  (charAt s p).bind fun q1 =>
  if q1 = dqC || q1 = sqC then
    let w := runFrom isWordChar s (p + 1)
    if w = 0 then none else
    match charAt s (p + 1 + w), charAt s (p + 2 + w) with
    | some q2, some cp =>
      if (q2 = dqC || q2 = sqC) && cp = ')' then
        some (sliceCs s (p + 1) (p + 1 + w), p + 3 + w)
      else none
    | _, _ => none
  else none

/-- One attempt of `/\.get(?:Claim)?\(['"]([\w_]+)['"]\)/` at `i` (the greedy
optional group admits no real backtracking: without `Claim`, `(` cannot
match the letter `C`). -/
def matchGetClaimAt (s : Cs) (i : Nat) : Option (Cs × Nat) :=
  (expectLit s ".get".data i).bind fun b =>
  if strAt s "Claim(".data b then innerClaimAt s (b + 6)
  else
    match charAt s b with
    | some c => if c = '(' then innerClaimAt s (b + 1) else none
    | none => none

/-- One attempt of `/claims\.get\(['"]([\w_]+)['"]\)/` at `i`. -/
def matchCustomClaimAt (s : Cs) (i : Nat) : Option (Cs × Nat) :=
  (expectLit s "claims.get(".data i).bind fun b => innerClaimAt s b

/-- JavaScript object-key assignment: key order is first-insertion order;
re-assignment keeps the position (the assigned values here are fixed
constants, so keeping the first value is faithful). -/
def recInsert (r : List (String × JVal)) (k : String) (v : JVal) : List (String × JVal) :=
  if (r.lookup k).isSome then r else r ++ [(k, v)]

/-- `investigateJwtClaims` for the located `*JwtTokenUtil*` and
`*JwtRequestFilter*` files. -/
def investigateJwtClaims (jwtUtilFiles jwtFilterFiles : List JavaFile) : JVal :=
  let jwtFiles := jwtUtilFiles ++ jwtFilterFiles
  match jwtFiles with
  | [] => .obj [("found", .bool false),
                ("message", .str "No JWT utility files found. Search for files containing 'Jwt'")]
  | first :: _ =>
    let res := jwtFiles.foldl (fun (st : List Cs × List (String × JVal)) file =>
      let content := file.content.data
      let claims1 := st.1 ++ globalMatches content ".get".data matchGetClaimAt
      let cm1 := if hasSubstr file.content ".getId()" then
          recInsert st.2 "jti" (.str "getUserId() or similar") else st.2
      let cm2 := if hasSubstr file.content ".getSubject()" then
          recInsert cm1 "sub" (.str "getEmail() or username") else cm1
      (claims1 ++ globalMatches content "claims.get(".data matchCustomClaimAt, cm2))
      ([], [])
    .obj [("found", .bool true),
          ("file", .str (jsBasename first.path)),
          ("standardClaims", .obj res.2),
          ("customClaims", .arr ((dedupCs res.1).map fun c => .str (ofChars c))),
          ("recommendation", .str "Include these claims in BaseIntegrationTest.generateTestToken()")]

/-- Backtracking over the greedy `[^}]*` of the wrapper-field regex: try
capture start offsets within the non-brace run from last to first; at each,
the greedy `\w+` and `\s*` runs are forced and `:` must follow. -/
def wrapperFieldSearch (s : Cs) (rstart : Nat) : Nat → Option Cs
  | 0 => none
  | a + 1 =>
    match charAt s (rstart + a) with
    | some c =>
      if isWordChar c then
        let w := runFrom isWordChar s (rstart + a)
        let w2 := runFrom isJsWs s (rstart + a + w)
        match charAt s (rstart + a + w + w2) with
        | some c2 =>
          if c2 = ':' then some (sliceCs s (rstart + a) (rstart + a + w))
          else wrapperFieldSearch s rstart a
        | none => wrapperFieldSearch s rstart a
      else wrapperFieldSearch s rstart a
    | none => wrapperFieldSearch s rstart a

/-- One attempt of `/class\s+\w+\s*\{[^}]*(\w+)\s*:/` at `i`. -/
def matchWrapperAt (s : Cs) (i : Nat) : Option Cs :=
  (expectLit s "class".data i).bind fun b =>
  let w1 := runFrom isJsWs s b
  if w1 = 0 then none else
  let n := runFrom isWordChar s (b + w1)
  if n = 0 then none else
  let w2 := runFrom isJsWs s (b + w1 + n)
  match charAt s (b + w1 + n + w2) with
  | some c =>
    if c = lbC then
      let rstart := b + w1 + n + w2 + 1
      wrapperFieldSearch s rstart (runFrom (fun c2 => c2 ≠ rbC) s rstart)
    else none
  | none => none

def firstWrapperFrom (s : Cs) : Nat → Nat → Option Cs
  | _, 0 => none
  | i, fuel + 1 =>
    match findSubstrFrom s "class".data i (s.length + 1) with
    | none => none
    | some j =>
      match matchWrapperAt s j with
      | some cap => some cap
      | none => firstWrapperFrom s (j + 1) fuel

/-- Leftmost match of the wrapper-field regex (`content.match`, capture 1). -/
def firstWrapperMatch (s : Cs) : Option Cs := firstWrapperFrom s 0 (s.length + 2)

/-- `investigateResponseWrapper` for the located `*Advice*` and `*Response*`
files.  Note the result carries `hasWrapper`, not a `found` discriminator,
and fills the dependent fields with placeholder values when absent. -/
def investigateResponseWrapper (adviceFiles responseFiles : List JavaFile) : JVal :=
  let allFiles := adviceFiles ++ responseFiles
  let st := allFiles.foldl (fun (st : Bool × String × String) file =>
    if hasSubstr file.content "ResponseBodyAdvice" || hasSubstr file.content "@ControllerAdvice" then
      (true, jsBasenameNoExt file.path,
        match firstWrapperMatch file.content.data with
        | some w => ofChars w
        | none => st.2.2)
    else st) (false, "", "data")
  .obj [("hasWrapper", .bool st.1),
        ("wrapperClass", .str (if st.1 then st.2.1 else "None")),
        ("wrapperField", .str (if st.1 then st.2.2 else "N/A")),
        ("jsonPathPrefix", .str (if st.1 then "$." ++ st.2.2 else "$")),
        ("recommendation", .str (if st.1 then
            "Use jsonPath(\"$." ++ st.2.2 ++ ".id\") in controller tests"
          else "Use jsonPath(\"$.id\") directly in controller tests"))]

/-- The five verb alternatives of the mapping regex, tried in source order. -/
def mappingVerbAt (s : Cs) (i : Nat) : Option (Cs × Nat) :=
  if strAt s "Get".data i then some ("Get".data, i + 3)
  else if strAt s "Post".data i then some ("Post".data, i + 4)
  else if strAt s "Put".data i then some ("Put".data, i + 3)
  else if strAt s "Delete".data i then some ("Delete".data, i + 6)
  else if strAt s "Patch".data i then some ("Patch".data, i + 5)
  else none

/-- The tail `\s+public\s+[\w<>]+\s+(\w+)` of the mapping regex at `p`. -/
def mappingTailAt (s : Cs) (p : Nat) : Option (Cs × Nat) :=
  let w1 := runFrom isJsWs s p
  if w1 = 0 then none else
  (expectLit s "public".data (p + w1)).bind fun b2 =>
  let w2 := runFrom isJsWs s b2
  if w2 = 0 then none else
  let t := runFrom (fun c => isWordChar c || c = '<' || c = '>') s (b2 + w2)
  if t = 0 then none else
  let w3 := runFrom isJsWs s (b2 + w2 + t)
  if w3 = 0 then none else
  let n := runFrom isWordChar s (b2 + w2 + t + w3)
  if n = 0 then none else
  some (sliceCs s (b2 + w2 + t + w3) (b2 + w2 + t + w3 + n), b2 + w2 + t + w3 + n)

/-- Backtracking over the greedy `[^)]*` before `["']` in the mapping regex:
quote candidates are tried from the last position of the non-`)` run
backwards; after the quote, `([^"']+)["']` and the second `[^)]*\)` are
forced greedy runs, then the tail must match. -/
def mappingQuoteSearch (s : Cs) (astart : Nat) : Nat → Option ((Cs × Cs) × Nat)
  | 0 => none
  | a + 1 =>
    let p1 := astart + a
    match charAt s p1 with
    | some q1 =>
      if q1 = dqC || q1 = sqC then
        let b := runFrom (fun c => c ≠ dqC && c ≠ sqC) s (p1 + 1)
        if b = 0 then mappingQuoteSearch s astart a else
        match charAt s (p1 + 1 + b) with
        | some q2 =>
          if q2 = dqC || q2 = sqC then
            let cc := runFrom (fun c => c ≠ ')') s (p1 + 2 + b)
            match charAt s (p1 + 2 + b + cc) with
            | some cp =>
              if cp = ')' then
                match mappingTailAt s (p1 + 3 + b + cc) with
                | some (n, e) => some ((sliceCs s (p1 + 1) (p1 + 1 + b), n), e)
                | none => mappingQuoteSearch s astart a
              else mappingQuoteSearch s astart a
            | none => mappingQuoteSearch s astart a
          else mappingQuoteSearch s astart a
        | none => mappingQuoteSearch s astart a
      else mappingQuoteSearch s astart a
    | none => mappingQuoteSearch s astart a

/-- One attempt at `i` of the endpoint regex
`/@(Get|Post|Put|Delete|Patch)Mapping\([^)]*["']([^"']+)["'][^)]*\)\s+public\s+[\w<>]+\s+(\w+)/`,
returning (verb, path, handler). -/
def matchMappingAt (s : Cs) (i : Nat) : Option ((Cs × Cs × Cs) × Nat) :=
  (charAt s i).bind fun c0 =>
  if c0 = '@' then
    (mappingVerbAt s (i + 1)).bind fun vp =>
    (expectLit s "Mapping(".data vp.2).bind fun astart =>
    match mappingQuoteSearch s astart (runFrom (fun c => c ≠ ')') s astart) with
    | some ((pth, h), e) => some ((vp.1, pth, h), e)
    | none => none
  else none

/-- One attempt at `i` of `/@RequestMapping\(["']([^"']+)["']\)/`. -/
def matchBasePathAt (s : Cs) (i : Nat) : Option (Cs × Nat) :=
  (expectLit s "@RequestMapping(".data i).bind fun b =>
  (charAt s b).bind fun q1 =>
  if q1 = dqC || q1 = sqC then
    let bb := runFrom (fun c => c ≠ dqC && c ≠ sqC) s (b + 1)
    if bb = 0 then none else
    match charAt s (b + 1 + bb), charAt s (b + 2 + bb) with
    | some q2, some cp =>
      if (q2 = dqC || q2 = sqC) && cp = ')' then
        some (sliceCs s (b + 1) (b + 1 + bb), b + 3 + bb)
      else none
    | _, _ => none
  else none

def firstBasePathFrom (s : Cs) : Nat → Nat → Option Cs
  | _, 0 => none
  | i, fuel + 1 =>
    match matchBasePathAt s i with
    | some (cap, _) => some cap
    | none => if s.length ≤ i then none else firstBasePathFrom s (i + 1) fuel

/-- Leftmost match of the base-path regex. -/
def firstBasePath (s : Cs) : Option Cs := firstBasePathFrom s 0 (s.length + 1)

/-- `analyzeController` for the located controller files. -/
def analyzeController (controllerFiles : List JavaFile) (controllerName : String) : JVal :=
  match controllerFiles with
  | [] => .obj [("found", .bool false),
                ("message", .str ("Controller " ++ controllerName ++ " not found"))]
  | file :: _ =>
    let content := file.content.data
    let endpoints := globalMatches content ['@'] matchMappingAt
    let requiresAuth := hasSubstr file.content "@PreAuthorize" || !(hasSubstr file.content "@PermitAll")
    let basePath := match firstBasePath content with
      | some b => ofChars b
      | none => ""
    .obj [("found", .bool true),
          ("controller", .str controllerName),
          ("basePath", .str basePath),
          ("requiresAuth", .bool requiresAuth),
          ("endpointCount", .num endpoints.length),
          ("endpoints", .arr (endpoints.map fun vph =>
            JVal.obj [("method", .str (ofChars (vph.1.map Char.toUpper))),
                      ("path", .str (ofChars vph.2.1)),
                      ("handlerMethod", .str (ofChars vph.2.2)),
                      ("fullPath", .str (basePath ++ ofChars vph.2.1))])),
          ("testRecommendation", .obj [
            ("authTests", .str (if requiresAuth then "Write auth tests first (401 unauthorized)"
              else "No auth required")),
            ("crudTests", .str ("Write tests for " ++ toString endpoints.length ++ " endpoints"))])]

/-- The plain branch (optional `@Query` group absent) of the repository
method regex `\s*([\w<>]+)\s+(\w+)\s*\([^)]*\)` at `j`. -/
def plainMethodAt (s : Cs) (j : Nat) : Option ((Cs × Cs) × Nat) :=
  let w0 := runFrom isJsWs s j
  let t := runFrom (fun c => isWordChar c || c = '<' || c = '>') s (j + w0)
  if t = 0 then none else
  let w1 := runFrom isJsWs s (j + w0 + t)
  if w1 = 0 then none else
  let n := runFrom isWordChar s (j + w0 + t + w1)
  if n = 0 then none else
  let w2 := runFrom isJsWs s (j + w0 + t + w1 + n)
  match charAt s (j + w0 + t + w1 + n + w2) with
  | some c =>
    if c = '(' then
      let args := runFrom (fun c2 => c2 ≠ ')') s (j + w0 + t + w1 + n + w2 + 1)
      match charAt s (j + w0 + t + w1 + n + w2 + 1 + args) with
      | some c2 =>
        if c2 = ')' then
          some ((sliceCs s (j + w0) (j + w0 + t),
                 sliceCs s (j + w0 + t + w1) (j + w0 + t + w1 + n)),
                j + w0 + t + w1 + n + w2 + 2 + args)
        else none
      | none => none
    else none
  | none => none

/-- One attempt at `j` of `/(?:@Query[^)]*\))?\s*([\w<>]+)\s+(\w+)\s*\([^)]*\)/`:
the greedy optional group is tried first; if its continuation fails the
group is dropped (at `j` the plain branch then fails on the `@`). -/
def matchMethodAt (s : Cs) (j : Nat) : Option ((Cs × Cs) × Nat) :=
  if strAt s "@Query".data j then
    let qa := runFrom (fun c => c ≠ ')') s (j + 6)
    match charAt s (j + 6 + qa) with
    | some c =>
      if c = ')' then
        match plainMethodAt s (j + 7 + qa) with
        | some r => some r
        | none => plainMethodAt s j
      else plainMethodAt s j
    | none => plainMethodAt s j
  else plainMethodAt s j

/-- Global matches of the repository method regex: it has no fixed leading
literal, so the leftmost scan tries every start position. -/
def methodMatchesAux (s : Cs) : Nat → Nat → List (Cs × Cs)
  | _, 0 => []
  | i, fuel + 1 =>
    match matchMethodAt s i with
    | some (r, e) => r :: methodMatchesAux s e fuel
    | none => if s.length ≤ i then [] else methodMatchesAux s (i + 1) fuel

def methodMatches (s : Cs) : List (Cs × Cs) := methodMatchesAux s 0 (s.length + 2)

/-- `analyzeRepository` for the located repository files. -/
def analyzeRepository (repoFiles : List JavaFile) (repositoryName : String) : JVal :=
  match repoFiles with
  | [] => .obj [("found", .bool false),
                ("message", .str ("Repository " ++ repositoryName ++ " not found"))]
  | file :: _ =>
    let content := file.content.data
    let queryMethods := (methodMatches content).filter fun tn =>
      "find".data.isPrefixOf tn.2 || "count".data.isPrefixOf tn.2 ||
      "exists".data.isPrefixOf tn.2 || "delete".data.isPrefixOf tn.2
    let isCustom := fun (tn : Cs × Cs) =>
      match firstIdxOf content "@Query".data, firstIdxOf content tn.2 with
      | some a, some b => decide (a < b)
      | _, _ => false
    let hasSoftDelete := hasSubstr file.content "@Where" && hasSubstr file.content "deleted"
    .obj [("found", .bool true),
          ("repository", .str repositoryName),
          ("queryMethodCount", .num queryMethods.length),
          ("queryMethods", .arr ((queryMethods.map fun tn =>
            JVal.obj [("returnType", .str (ofChars tn.1)),
                      ("methodName", .str (ofChars tn.2)),
                      ("isCustomQuery", .bool (isCustom tn))]).take 10)),
          ("hasSoftDelete", .bool hasSoftDelete),
          ("testRecommendation", .obj [
            ("softDeleteWarning", if hasSoftDelete then
                .str "⚠️ Always set .deleted(false) in test data"
              else .null),
            ("customQueryTests", .str (if (queryMethods.filter isCustom).length > 0 then
                "Write tests for custom @Query methods"
              else "Standard Spring Data methods can use template"))])]

/-- The `(\w+Repository)\s+\w+` tail of the autowired regex at `p`: the
greedy `\w+` inside the capture forces the capture to be the whole word run,
which must end in `Repository` with a nonempty stem. -/
def repoCaptureAt (s : Cs) (p : Nat) : Option (Cs × Nat) :=
  let m := runFrom isWordChar s p
  if m = 0 then none else
  if 11 ≤ m && "Repository".data.isSuffixOf (sliceCs s p (p + m)) then
    let w2 := runFrom isJsWs s (p + m)
    if w2 = 0 then none else
    let f := runFrom isWordChar s (p + m + w2)
    if f = 0 then none else some (sliceCs s p (p + m), p + m + w2 + f)
  else none

/-- One attempt at `i` of `/@Autowired\s+(?:private\s+)?(\w+Repository)\s+\w+/`. -/
def matchAutowiredAt (s : Cs) (i : Nat) : Option (Cs × Nat) :=
  (expectLit s "@Autowired".data i).bind fun b =>
  let w1 := runFrom isJsWs s b
  if w1 = 0 then none else
  let q := b + w1
  if strAt s "private".data q then
    let w2 := runFrom isJsWs s (q + 7)
    if w2 = 0 then repoCaptureAt s q
    else
      match repoCaptureAt s (q + 7 + w2) with
      | some r => some r
      | none => repoCaptureAt s q
  else repoCaptureAt s q

/-- One attempt at `i` of `/public\s+[\w<>]+\s+(\w+)\s*\(/`. -/
def matchPublicMethodAt (s : Cs) (i : Nat) : Option (Cs × Nat) :=
  (expectLit s "public".data i).bind fun b =>
  let w1 := runFrom isJsWs s b
  if w1 = 0 then none else
  let t := runFrom (fun c => isWordChar c || c = '<' || c = '>') s (b + w1)
  if t = 0 then none else
  let w2 := runFrom isJsWs s (b + w1 + t)
  if w2 = 0 then none else
  let n := runFrom isWordChar s (b + w1 + t + w2)
  if n = 0 then none else
  let w3 := runFrom isJsWs s (b + w1 + t + w2 + n)
  match charAt s (b + w1 + t + w2 + n + w3) with
  | some c =>
    if c = '(' then
      some (sliceCs s (b + w1 + t + w2) (b + w1 + t + w2 + n), b + w1 + t + w2 + n + w3 + 1)
    else none
  | none => none

/-- Greedy `\w+` inside `(\w+Exception)` with nothing after the capture: the
largest stem offset `t ≥ 1` such that `Exception` follows inside the word
run; the capture may end before the run does. -/
def lastExcOff (s : Cs) (p m : Nat) : Nat → Option Nat
  | 0 => none
  | t + 1 =>
    if t + 1 + 9 ≤ m && strAt s "Exception".data (p + t + 1) then some (t + 1)
    else lastExcOff s p m t

/-- One attempt at `i` of `/throw\s+new\s+(\w+Exception)/`. -/
def matchThrowAt (s : Cs) (i : Nat) : Option (Cs × Nat) :=
  (expectLit s "throw".data i).bind fun b =>
  let w1 := runFrom isJsWs s b
  if w1 = 0 then none else
  (expectLit s "new".data (b + w1)).bind fun b2 =>
  let w2 := runFrom isJsWs s b2
  if w2 = 0 then none else
  let p := b2 + w2
  let m := runFrom isWordChar s p
  if m = 0 then none else
  match lastExcOff s p m m with
  | some t => some (sliceCs s p (p + t + 9), p + t + 9)
  | none => none

/-- JavaScript `Array.prototype.join(", ")`. -/
def joinComma : List String → String
  | [] => ""
  | [x] => x
  | x :: xs => x ++ ", " ++ joinComma xs

/-- `investigateService` for the located service files. -/
def investigateService (serviceFiles : List JavaFile) (serviceName : String) : JVal :=
  match serviceFiles with
  | [] => .obj [("found", .bool false),
                ("message", .str ("Service " ++ serviceName ++ " not found"))]
  | file :: _ =>
    let content := file.content.data
    let repositories := globalMatches content "@Autowired".data matchAutowiredAt
    let publicMethods := globalMatches content "public".data matchPublicMethodAt
    let exceptions := dedupCs (globalMatches content "throw".data matchThrowAt)
    let isTransactional := hasSubstr file.content "@Transactional"
    .obj [("found", .bool true),
          ("service", .str serviceName),
          ("isTransactional", .bool isTransactional),
          ("repositoryDependencies", .arr (repositories.map fun r => .str (ofChars r))),
          ("publicMethodCount", .num publicMethods.length),
          ("publicMethods", .arr ((publicMethods.take 10).map fun m => .str (ofChars m))),
          ("exceptionTypes", .arr (exceptions.map fun e => .str (ofChars e))),
          ("testRecommendation", .obj [
            ("setup", .str ("Autowire: " ++ serviceName ++ " and " ++
              joinComma (repositories.map ofChars))),
            ("happyPath", .str ("Test " ++ toString publicMethods.length ++ " public methods")),
            ("exceptions", .str (if exceptions.length > 0 then
                "Write tests for " ++ joinComma (exceptions.map ofChars)
              else "No explicit exception tests needed"))])]

/-- Concrete entity source: one to-one declaration adjacent to a
`nullable = false` marker and one with no nullable marker at all. -/
def orderEntity : JavaFile :=
  ⟨"/proj/src/main/java/com/shop/Order.java",
   "@Entity public class Order extends BaseEntity \x7b @ManyToOne @JoinColumn(name = \"customer_id\", nullable = false) private Customer customer; @ManyToOne private Merchant merchant; @OneToMany(mappedBy = \"order\") private List<OrderItem> items; \x7d"⟩

/-- Concrete production source with three `@Value` injections over two
distinct property keys. -/
def propsFileEx : String :=
  "@Service public class A \x7b @Value(\"$\x7bapp.key\x7d\") private String k; @Value(\"$\x7bother.prop:42\x7d\") private String o; @Value(\"$\x7bapp.key\x7d\") private String k2; \x7d"

/-- JavaScript object increment `r[k] = (r[k] || 0) + 1`: an existing key is
incremented in place (keeping its position), a new key is appended. -/
def recIncr (r : List (String × Nat)) (k : String) : List (String × Nat) :=
  match r.lookup k with
  | some _ => r.map fun kv => if kv.1 = k then (kv.1, kv.2 + 1) else kv
  | none => r ++ [(k, 1)]

/-- The per-file strategy tallies of `checkJsonNamingStrategy`, in the
key-insertion order of the JavaScript record. -/
def jsonStrategies (dtoFiles : List String) : List (String × Nat) :=
  dtoFiles.foldl (fun st content =>
    if hasSubstr content "@JsonNaming(PropertyNamingStrategies.SnakeCaseStrategy" then
      recIncr st "snake_case"
    else if hasSubstr content "@JsonNaming" then recIncr st "other"
    else recIncr st "camelCase") []

/-- Stable insertion step for `sort((a, b) => b[1] - a[1])`: descending by
count, ties keep first-seen order (JavaScript `Array.prototype.sort` is
stable). -/
def insDesc (x : String × Nat) : List (String × Nat) → List (String × Nat)
  | [] => [x]
  | y :: ys => if y.2 < x.2 then x :: y :: ys else y :: insDesc x ys

def stableSortDesc (l : List (String × Nat)) : List (String × Nat) :=
  l.foldl (fun acc x => insDesc x acc) []

/-- `checkJsonNamingStrategy`: the located DTO file contents plus the
requested package (echoed into the result). -/
def checkJsonNamingStrategy (dtoPackage : String) (dtoFiles : List String) : JVal :=
  let strategies := jsonStrategies dtoFiles
  let primary := (stableSortDesc strategies).head?
  .obj [("dtoPackage", .str dtoPackage),
        ("filesAnalyzed", .num dtoFiles.length),
        ("strategies", .obj (strategies.map fun kv => (kv.1, JVal.num kv.2))),
        ("primaryStrategy", .str (match primary with
          | some p => p.1
          | none => "camelCase")),
        ("recommendation", .str (match primary with
          | some p =>
            if p.1 = "snake_case" then "Use snake_case in JSON: \x7b\"company_id\": 100\x7d"
            else "Use camelCase in JSON: \x7b\"companyId\": 100\x7d"
          | none => "Use camelCase in JSON: \x7b\"companyId\": 100\x7d"))]

/-- JavaScript `String.prototype.toLowerCase` (the scanned keywords are
ASCII). -/
def jsToLower (s : String) : String := ofChars (s.data.map Char.toLower)

/-- JavaScript `String.prototype.replace` with a string pattern and empty
replacement: remove the first occurrence. -/
def jsReplaceFirst (s pat : Cs) : Cs :=
  match firstIdxOf s pat with
  | some i => s.take i ++ s.drop (i + pat.length)
  | none => s

/-- The fixed keyword list of `findBeansNeedingExclusion`. -/
def keywordsList : List String := ["aws", "tenant", "secret", "s3", "dynamo", "sqs", "sns"]

/-- `findBeansNeedingExclusion` for the located production-source files. -/
def findBeansNeedingExclusion (projectPath : String) (javaFiles : List JavaFile) : JVal :=
  let beansToExclude := javaFiles.foldl (fun acc file =>
    let content := file.content
    let fileName := jsBasenameNoExt file.path
    let isBean := hasSubstr content "@Configuration" || hasSubstr content "@Service" ||
      hasSubstr content "@Component"
    if isBean then
      let hasProfile := hasSubstr content "@Profile"
      let matchesK := fun k =>
        hasSubstr (jsToLower fileName) k || hasSubstr (jsToLower content) k
      if keywordsList.any matchesK && !hasProfile then
        acc ++ [JVal.obj [
          ("file", .str fileName),
          ("path", .str (ofChars (jsReplaceFirst file.path.data projectPath.data))),
          ("reason", .arr ((keywordsList.filter matchesK).map fun k => .str k))]]
      else acc
    else acc) []
  .obj [("found", .num beansToExclude.length),
        ("beansToExclude", .arr beansToExclude),
        ("recommendation", .str (if beansToExclude.length > 0 then
            "Add @Profile(\"!test\") to these " ++ toString beansToExclude.length ++ " classes"
          else "No beans found that need exclusion")),
        ("action", .str "Add: @Profile(\"!test\") above @Configuration/@Service/@Component")]

/-- The manifest fields `checkSpringBootVersion` reads from the parsed
`pom.xml` (each `Option` for an absent key), as strings. -/
structure PomInfo where
  parentVersion : Option String
  springBootVersionProp : Option String
  javaVersionProp : Option String
  mavenCompilerSource : Option String

/-- A `a || b` step of the version fallback chains (the empty string is
falsy). -/
def jsOrStr (a : Option String) (b : String) : String :=
  match a with
  | some v => if v = "" then b else v
  | none => b

def isHexDigit (c : Char) : Bool :=
  c.isDigit || ('a' ≤ c && c ≤ 'f') || ('A' ≤ c && c ≤ 'F')

def hexDigitVal (c : Char) : Nat :=
  if c.isDigit then c.toNat - 48
  else if 'a' ≤ c && c ≤ 'f' then c.toNat - 87
  else c.toNat - 55

def natOfHex (ds : Cs) : Nat := ds.foldl (fun a c => a * 16 + hexDigitVal c) 0

def jsParseIntCore (t : Cs) : Option Int :=
  if strAt t "0x".data 0 || strAt t "0X".data 0 then
    let d := (t.drop 2).takeWhile isHexDigit
    if d = [] then none else some (natOfHex d)
  else
    let d := t.takeWhile Char.isDigit
    if d = [] then none else some (natOfDigits d)

/-- JavaScript `parseInt` without an explicit radix: leading whitespace and
sign, auto-detected hexadecimal, trailing garbage ignored; `none` is `NaN`
(every `NaN` comparison below is false). -/
def jsParseInt (s : String) : Option Int :=
  match s.data.dropWhile isJsWs with
  | [] => none
  | c :: rest =>
    if c = '-' then (jsParseIntCore rest).map fun n => -n
    else if c = '+' then jsParseIntCore rest
    else jsParseIntCore (c :: rest)

/-- `checkSpringBootVersion` from the parsed-manifest boundary on: the XML
library is an external collaborator, so its output is the input here —
`none` when the `try` block fails (manifest unreadable or malformed, or a
field value on which the string operations throw), `some` carrying the four
version fields as strings. -/
def checkSpringBootVersion (pom : Option PomInfo) : JVal :=
  match pom with
  | none => .obj [("error", .str "Could not parse pom.xml"),
                  ("message", .str "Ensure pom.xml exists and is valid XML")]
  | some p =>
    let springBootVersion := jsOrStr p.parentVersion (jsOrStr p.springBootVersionProp "Unknown")
    let javaVersion := jsOrStr p.javaVersionProp (jsOrStr p.mavenCompilerSource "Unknown")
    let isSpringBoot3 := "3".data.isPrefixOf springBootVersion.data
    let isJava17Plus := match jsParseInt javaVersion with
      | some n => decide ((17 : Int) ≤ n)
      | none => false
    .obj [("springBootVersion", .str springBootVersion),
          ("javaVersion", .str javaVersion),
          ("isSpringBoot3", .bool isSpringBoot3),
          ("persistenceApi", .str (if isSpringBoot3 then "jakarta.persistence.*"
            else "javax.persistence.*")),
          ("recommendations", .obj [
            ("imports", .str (if isSpringBoot3 then "Use jakarta.persistence.* imports"
              else "Use javax.persistence.* imports")),
            ("testDependencies", .str (if isJava17Plus then "Use JUnit 5.10+, Mockito 5.x+"
              else "Use JUnit 5.11.4, Mockito 5.14.2 (Java 11 compatible)")),
            ("moduleOpens", .str (if isJava17Plus then "Add --add-opens flags to maven-surefire-plugin"
              else "Module opens optional but recommended for Orika"))])]

/-- C10: for every tool invocation, an absent, empty or whitespace-only
`projectPath`, or one beginning with a Windows drive-letter prefix, resolves
to the default workspace path (`/workspace`, or the `MCP_WORKSPACE`
environment value); every other value is used unchanged. -/
theorem resolveProjectPath_spec : ∀ (env : Option String) (s : String),
    (resolveProjectPath env none = DEFAULT_WORKSPACE env) ∧
    (jsTrim s = "" → resolveProjectPath env (some s) = DEFAULT_WORKSPACE env) ∧
    (hasDrivePre s = true → resolveProjectPath env (some s) = DEFAULT_WORKSPACE env) ∧
    (jsTrim s ≠ "" → hasDrivePre s = false → resolveProjectPath env (some s) = s) := by
  intro env s
  refine ⟨rfl, ?_, ?_, ?_⟩
  · intro h
    simp [resolveProjectPath, h]
  · intro h
    by_cases ht : jsTrim s = "" <;> simp [resolveProjectPath, ht, h]
  · intro ht hd
    simp [resolveProjectPath, ht, hd]

/-- Witness for C10 at concrete inputs: absent, whitespace-only, drive-letter
and ordinary paths. -/
theorem resolveProjectPath_spec_witness :
    resolveProjectPath none none = "/workspace" ∧
    resolveProjectPath (some "/ws") (some "   ") = "/ws" ∧
    resolveProjectPath none (some "C:\\proj") = "/workspace" ∧
    resolveProjectPath none (some "/home/me/proj") = "/home/me/proj" :=
  ⟨((resolveProjectPath_spec none "").1).trans (by decide),
   (((resolveProjectPath_spec (some "/ws") "   ").2.1 (by decide)).trans (by decide)),
   (((resolveProjectPath_spec none "C:\\proj").2.2.1 (by decide)).trans (by decide)),
   ((resolveProjectPath_spec none "/home/me/proj").2.2.2 (by decide) (by decide))⟩

/-- C1 (amended): whenever the combined captured output matches the
summary-line regex, the returned outcome's `success` equals the comparison
of the captured failure/error digit strings with `"0"`; under the canonical
hypothesis that a capture equals `"0"` exactly when its numeric value is 0,
`success == (failures == 0 && errors == 0)` in terms of the returned numeric
fields, which are the `parseInt` values of the same captures. -/
theorem runTestCheckpoint_summary_invariant (stdout stderr : String)
    (run failures errors skipped : Cs)
    (h : firstSummaryMatch (stdout ++ stderr).data = some (run, failures, errors, skipped))
    (hf : failures = zeroCs ↔ natOfDigits failures = 0)
    (he : errors = zeroCs ↔ natOfDigits errors = 0) :
    (runTestCheckpoint (.ok stdout stderr)).getField "success"
      = some (.bool (natOfDigits failures == 0 && natOfDigits errors == 0)) ∧
    (runTestCheckpoint (.ok stdout stderr)).getField "testsRun" = some (.num (natOfDigits run)) ∧
    (runTestCheckpoint (.ok stdout stderr)).getField "failures" = some (.num (natOfDigits failures)) ∧
    (runTestCheckpoint (.ok stdout stderr)).getField "errors" = some (.num (natOfDigits errors)) ∧
    (runTestCheckpoint (.ok stdout stderr)).getField "skipped" = some (.num (natOfDigits skipped)) := by
  have h1 : (failures == zeroCs) = (natOfDigits failures == 0) := by
    rw [Bool.eq_iff_iff]
    simpa using hf
  have h2 : (errors == zeroCs) = (natOfDigits errors == 0) := by
    rw [Bool.eq_iff_iff]
    simpa using he
  have hr : runTestCheckpoint (.ok stdout stderr) = parseTestOutput (stdout ++ stderr).data := rfl
  have hp : (parseTestOutput (stdout ++ stderr).data).getField "success"
      = some (.bool (failures == zeroCs && errors == zeroCs)) := by
    unfold parseTestOutput
    rw [h]
    exact rfl
  refine ⟨?_, ?_, ?_, ?_, ?_⟩
  · rw [hr, hp, h1, h2]
  · rw [hr]
    unfold parseTestOutput
    rw [h]
    exact rfl
  · rw [hr]
    unfold parseTestOutput
    rw [h]
    exact rfl
  · rw [hr]
    unfold parseTestOutput
    rw [h]
    exact rfl
  · rw [hr]
    unfold parseTestOutput
    rw [h]
    exact rfl

/-- Witness for C1's amended theorem at the summary line of the claim:
`Tests run: 5, Failures: 2, Errors: 0, Skipped: 0` yields
`testsRun = 5, failures = 2, errors = 0, skipped = 0, success = false`. -/
theorem runTestCheckpoint_summary_invariant_witness :
    (runTestCheckpoint (.ok "Tests run: 5, Failures: 2, Errors: 0, Skipped: 0" "")).getField "success" = some (.bool false) ∧
    (runTestCheckpoint (.ok "Tests run: 5, Failures: 2, Errors: 0, Skipped: 0" "")).getField "testsRun" = some (.num 5) ∧
    (runTestCheckpoint (.ok "Tests run: 5, Failures: 2, Errors: 0, Skipped: 0" "")).getField "failures" = some (.num 2) ∧
    (runTestCheckpoint (.ok "Tests run: 5, Failures: 2, Errors: 0, Skipped: 0" "")).getField "errors" = some (.num 0) ∧
    (runTestCheckpoint (.ok "Tests run: 5, Failures: 2, Errors: 0, Skipped: 0" "")).getField "skipped" = some (.num 0) := by
  have h := runTestCheckpoint_summary_invariant
    "Tests run: 5, Failures: 2, Errors: 0, Skipped: 0" ""
    "5".data "2".data "0".data "0".data (by decide) (by decide) (by decide)
  exact ⟨h.1.trans rfl, h.2.1.trans rfl, h.2.2.1.trans rfl, h.2.2.2.1.trans rfl,
    h.2.2.2.2.trans rfl⟩

/-- C1 counterexample: a summary line whose failure count is the digit
string `00` matches the summary shape, yet the outcome has `success = false`
while its numeric `failures` and `errors` fields are both 0 — so
`success == (failures == 0 && errors == 0)` fails as stated. -/
theorem runTestCheckpoint_c1_counterexample :
    (runTestCheckpoint (.ok "Tests run: 1, Failures: 00, Errors: 0, Skipped: 0" "")).getField "success" = some (.bool false) ∧
    (runTestCheckpoint (.ok "Tests run: 1, Failures: 00, Errors: 0, Skipped: 0" "")).getField "failures" = some (.num 0) ∧
    (runTestCheckpoint (.ok "Tests run: 1, Failures: 00, Errors: 0, Skipped: 0" "")).getField "errors" = some (.num 0) :=
  ⟨rfl, rfl, rfl⟩

/-- C4: when the combined captured output contains no match of the
summary-line regex, `run_test_checkpoint` returns the unparseable-result
shape (message plus the 500-character tail of the raw output) and throws
nothing — the function is total. -/
theorem runTestCheckpoint_unparseable (stdout stderr : String)
    (h : firstSummaryMatch (stdout ++ stderr).data = none) :
    runTestCheckpoint (.ok stdout stderr) =
      .obj [("success", .bool false),
            ("message", .str "Could not parse test results"),
            ("output", .str (ofChars (takeLastCs 500 (stdout ++ stderr).data)))] := by
  have hr : runTestCheckpoint (.ok stdout stderr) = parseTestOutput (stdout ++ stderr).data := rfl
  rw [hr]
  unfold parseTestOutput
  rw [h]

/-- Witness for C4 at a concrete output without a summary line. -/
theorem runTestCheckpoint_unparseable_witness :
    runTestCheckpoint (.ok "[INFO] BUILD FAILURE\nno summary here" "") =
      .obj [("success", .bool false),
            ("message", .str "Could not parse test results"),
            ("output", .str "[INFO] BUILD FAILURE\nno summary here")] :=
  (runTestCheckpoint_unparseable "[INFO] BUILD FAILURE\nno summary here" "" (by decide)).trans rfl

/-- C3 (amended): for a normal-exit compile run, `success:true` with
`errors == []` holds iff the sentinel appears in the captured standard
output (standard error is not consulted); on abnormal termination `success`
is false regardless of output. -/
theorem validateMavenCompile_success_iff (stdout stderr : String) :
    ((((validateMavenCompile (.ok stdout stderr)).getField "success" = some (.bool true)) ∧
      ((validateMavenCompile (.ok stdout stderr)).getField "errors" = some (.arr [])))
      ↔ hasSubstr stdout buildSuccessSentinel = true) ∧
    ((validateMavenCompile (.failed stdout stderr)).getField "success" = some (.bool false)) := by
  constructor
  · by_cases h : hasSubstr stdout buildSuccessSentinel <;>
      simp [validateMavenCompile, JVal.getField, List.lookup, h]
  · rfl

/-- C3 counterexample: the sentinel occurs in the captured output (it is in
stderr), yet the outcome is `success:false` with `errors = []`: success is
not equivalent to the sentinel appearing in the captured output. -/
theorem validateMavenCompile_c3_counterexample :
    hasSubstr ("" ++ "BUILD SUCCESS") buildSuccessSentinel = true ∧
    (validateMavenCompile (.ok "" "BUILD SUCCESS")).getField "success" = some (.bool false) ∧
    (validateMavenCompile (.ok "" "BUILD SUCCESS")).getField "errors" = some (.arr []) :=
  ⟨by decide, rfl, rfl⟩

/-- C7 (amended): on a failed normal-exit compile run, the `errors` list is
the list of error-line matches of the captured standard error, in source
order, truncated to the first 10. -/
theorem validateMavenCompile_errors_truncated (stdout stderr : String)
    (h : hasSubstr stdout buildSuccessSentinel = false) :
    (validateMavenCompile (.ok stdout stderr)).getField "errors"
      = some (.arr (((errorMatches stderr.data).take 10).map fun m => .str (ofChars m))) ∧
    ((errorMatches stderr.data).take 10).length ≤ 10 := by
  constructor
  · simp [validateMavenCompile, JVal.getField, List.lookup, h]
  · exact (List.length_take 10 (errorMatches stderr.data)) ▸ Nat.min_le_left _ _

/-- Witness for C7: 15 error-marker lines in the captured standard error
yield exactly the first 10 messages, in order. -/
theorem validateMavenCompile_errors_truncated_witness :
    (errorMatches errLines15.data).length = 15 ∧
    (validateMavenCompile (.ok "BUILD FAILURE" errLines15)).getField "errors"
      = some (.arr [.str "e1", .str "e2", .str "e3", .str "e4", .str "e5",
          .str "e6", .str "e7", .str "e8", .str "e9", .str "e10"]) :=
  ⟨rfl, ((validateMavenCompile_errors_truncated "BUILD FAILURE" errLines15 (by decide)).1).trans rfl⟩

/-- C7 counterexample: the same 15 error-marker lines placed in the captured
standard output (stderr empty) produce an empty `errors` list, not 10
entries — the scan reads only stderr, not the whole captured text. -/
theorem validateMavenCompile_c7_counterexample :
    (errorMatches errLines15.data).length = 15 ∧
    (validateMavenCompile (.ok errLines15 "")).getField "errors" = some (.arr []) :=
  ⟨rfl, rfl⟩

/-- C8 (amended): on subprocess failure (timeout, non-zero exit or failure
to start), the test operation returns a synthesized failure outcome carrying
the 1000-character tail of the captured partial output, while the compile
operation returns a failure outcome carrying only up to 10 parsed error
lines from stderr and no raw-output tail; neither propagates the fault (both
are total functions of the captured result).  The configured timeouts are
180000 ms (compile) and 120000 ms (test). -/
theorem buildFailureOutcomes (stdout stderr : String) :
    ((runTestCheckpoint (.failed stdout stderr)).getField "output"
        = some (.str (ofChars (takeLastCs 1000 (stdout ++ stderr).data)))) ∧
    ((runTestCheckpoint (.failed stdout stderr)).getField "success" = some (.bool false)) ∧
    ((validateMavenCompile (.failed stdout stderr)).getField "output" = none) ∧
    ((validateMavenCompile (.failed stdout stderr)).getField "errors"
        = some (.arr (((errorMatches stderr.data).take 10).map fun m => .str (ofChars m)))) ∧
    ((validateMavenCompile (.failed stdout stderr)).getField "success" = some (.bool false)) ∧
    testTimeoutMs = 120000 ∧ compileTimeoutMs = 180000 :=
  ⟨rfl, rfl, rfl, rfl, rfl, rfl, rfl⟩

/-- C8 counterexample: a failed compile run returns an outcome with no raw
output field at all — the captured partial stdout is dropped, not truncated
to a 1000-character tail as the claim states for every build operation. -/
theorem buildFailure_c8_counterexample :
    validateMavenCompile (.failed "partial compile output" "") =
      .obj [("success", .bool false),
            ("message", .str "✗ BUILD FAILED"),
            ("errors", .arr []),
            ("recommendation", .str "Fix compilation errors before writing tests")] ∧
    (validateMavenCompile (.failed "partial compile output" "")).getField "output" = none :=
  ⟨rfl, rfl⟩


/-- Helper: a text without some fragment cannot contain a pattern that has
the fragment as an infix. -/
theorem hasSubstr_false_of_part (s pat sub : String)
    (hsub : sub.data <:+: pat.data) (h : hasSubstr s sub = false) :
    hasSubstr s pat = false := by
  unfold hasSubstr at h ⊢
  rw [decide_eq_false_iff_not] at h ⊢
  exact fun hinf => h (hsub.trans hinf)

/-- C6: every to-one relationship extracted by the entity extractor is
marked `required:true` (whether a nullable marker is adjacent or absent),
for any entity source that does not contain the literal fragment `.*`: the
nullability test is `content.includes` of a template string containing
`.*`, so it can only fail on contrived contents. -/
theorem investigateEntityRelationships_required_inference
    (file : JavaFile) (rest : List JavaFile) (entityName : String)
    (h : hasSubstr file.content ".*" = false) :
    (investigateEntityRelationships (file :: rest) entityName).getField "relationships"
      = some (.obj [
          ("manyToOne", .arr ((manyToOneMatches file.content.data).map fun tf =>
            JVal.obj [("type", .str (ofChars tf.1)),
                      ("field", .str (ofChars tf.2)),
                      ("required", .bool true)])),
          ("oneToMany", .arr ((oneToManyMatches file.content.data).map fun tf =>
            JVal.obj [("type", .str (ofChars tf.1)), ("field", .str (ofChars tf.2))])),
          ("oneToOne", .arr []),
          ("manyToMany", .arr [])]) := by
  have hpat : ∀ f : Cs,
      hasSubstr file.content (ofChars ("@JoinColumn.*".data ++ f ++ ".*nullable.*true".data)) = false := by
    intro f
    refine hasSubstr_false_of_part file.content _ ".*" ?_ h
    exact ⟨"@JoinColumn".data, f ++ ".*nullable.*true".data, rfl⟩
  have hmap : (manyToOneMatches file.content.data).map (fun tf =>
      JVal.obj [("type", .str (ofChars tf.1)),
                ("field", .str (ofChars tf.2)),
                ("required", .bool (!(hasSubstr file.content
                  (ofChars ("@JoinColumn.*".data ++ tf.2 ++ ".*nullable.*true".data)))))])
      = (manyToOneMatches file.content.data).map (fun tf =>
      JVal.obj [("type", .str (ofChars tf.1)),
                ("field", .str (ofChars tf.2)),
                ("required", .bool true)]) :=
    List.map_congr_left fun tf _ => by rw [hpat tf.2]; rfl
  have hg : (investigateEntityRelationships (file :: rest) entityName).getField "relationships"
      = some (.obj [
          ("manyToOne", .arr ((manyToOneMatches file.content.data).map fun tf =>
            JVal.obj [("type", .str (ofChars tf.1)),
                      ("field", .str (ofChars tf.2)),
                      ("required", .bool (!(hasSubstr file.content
                        (ofChars ("@JoinColumn.*".data ++ tf.2 ++ ".*nullable.*true".data)))))])),
          ("oneToMany", .arr ((oneToManyMatches file.content.data).map fun tf =>
            JVal.obj [("type", .str (ofChars tf.1)), ("field", .str (ofChars tf.2))])),
          ("oneToOne", .arr []),
          ("manyToMany", .arr [])]) := rfl
  rw [hg, hmap]

/-- Witness for C6 at a concrete entity: the declaration adjacent to
`nullable = false` and the declaration with no nullable marker are both
`required:true`. -/
theorem investigateEntityRelationships_required_inference_witness :
    (investigateEntityRelationships [orderEntity] "Order").getField "relationships"
      = some (.obj [
          ("manyToOne", .arr [
            .obj [("type", .str "Customer"), ("field", .str "customer"), ("required", .bool true)],
            .obj [("type", .str "Merchant"), ("field", .str "merchant"), ("required", .bool true)]]),
          ("oneToMany", .arr [.obj [("type", .str "OrderItem"), ("field", .str "items")]]),
          ("oneToOne", .arr []),
          ("manyToMany", .arr [])]) :=
  (investigateEntityRelationships_required_inference orderEntity [] "Order" (by decide)).trans rfl

/-- C5: when the test-configuration file does not exist, the result reports
`testPropertiesFileExists:false` and `missingProperties` is exactly the full
discovered key set (with `totalProperties` its size); checked also on a
concrete corpus with duplicate keys. -/
theorem findMissingProperties_no_test_file :
    (∀ files : List String,
      (findMissingProperties files none).getField "testPropertiesFileExists" = some (.bool false) ∧
      (findMissingProperties files none).getField "missingProperties"
        = some (.arr ((discoveredProps files).map fun p => .str (ofChars p))) ∧
      (findMissingProperties files none).getField "totalProperties"
        = some (.num (discoveredProps files).length)) ∧
    (findMissingProperties [propsFileEx] none).getField "missingProperties"
      = some (.arr [.str "app.key", .str "other.prop"]) :=
  ⟨fun _ => ⟨rfl, rfl, rfl⟩, rfl⟩

/-- C2 (amended): on an empty corpus the five `found`-discriminated
extractors return exactly `{found:false, message}` and raise nothing (all
are total); the response-wrapper extractor instead returns
`{hasWrapper:false, ...}` with placeholder dependent fields and no `found`
key. -/
theorem extractors_not_found :
    (∀ n, investigateEntityRelationships [] n =
      .obj [("found", .bool false), ("message", .str ("Entity " ++ n ++ " not found"))]) ∧
    (∀ n, analyzeController [] n =
      .obj [("found", .bool false), ("message", .str ("Controller " ++ n ++ " not found"))]) ∧
    (∀ n, analyzeRepository [] n =
      .obj [("found", .bool false), ("message", .str ("Repository " ++ n ++ " not found"))]) ∧
    (∀ n, investigateService [] n =
      .obj [("found", .bool false), ("message", .str ("Service " ++ n ++ " not found"))]) ∧
    (investigateJwtClaims [] [] =
      .obj [("found", .bool false),
            ("message", .str "No JWT utility files found. Search for files containing 'Jwt'")]) ∧
    (investigateResponseWrapper [] [] =
      .obj [("hasWrapper", .bool false),
            ("wrapperClass", .str "None"),
            ("wrapperField", .str "N/A"),
            ("jsonPathPrefix", .str "$"),
            ("recommendation", .str "Use jsonPath(\"$.id\") directly in controller tests")]) :=
  ⟨fun _ => rfl, fun _ => rfl, fun _ => rfl, fun _ => rfl, rfl, rfl⟩

/-- C2 counterexample: with no matching file, the response-wrapper extractor
(listed by the claim) returns a record with no `found` key at all, and its
dependent fields are populated with placeholders — not
`{found:false, ...}` with no dependent fields populated. -/
theorem responseWrapper_no_found_field :
    (investigateResponseWrapper [] []).getField "found" = none ∧
    (investigateResponseWrapper [] []).getField "wrapperClass" = some (.str "None") ∧
    (investigateResponseWrapper [] []).getField "wrapperField" = some (.str "N/A") :=
  ⟨rfl, rfl, rfl⟩

/-- C9: every extractor is a pure function of the located corpus and focal
name (for the manifest extractor, of the parsed-manifest fields), so running
it twice on an unchanged corpus yields identical output; the embedding has
no hidden state, mirroring the stateless source functions whose only inputs
are the located files' contents. -/
theorem extractors_deterministic :
    ∀ (u fl af rf ef cf pf sf bf : List JavaFile) (en cn rn sn dp pp : String)
      (files dfs : List String) (tp : Option String) (pom : Option PomInfo),
      (investigateJwtClaims u fl = investigateJwtClaims u fl) ∧
      (investigateResponseWrapper af rf = investigateResponseWrapper af rf) ∧
      (investigateEntityRelationships ef en = investigateEntityRelationships ef en) ∧
      (analyzeController cf cn = analyzeController cf cn) ∧
      (analyzeRepository pf rn = analyzeRepository pf rn) ∧
      (investigateService sf sn = investigateService sf sn) ∧
      (findMissingProperties files tp = findMissingProperties files tp) ∧
      (checkJsonNamingStrategy dp dfs = checkJsonNamingStrategy dp dfs) ∧
      (findBeansNeedingExclusion pp bf = findBeansNeedingExclusion pp bf) ∧
      (checkSpringBootVersion pom = checkSpringBootVersion pom) := by
  intros
  exact ⟨rfl, rfl, rfl, rfl, rfl, rfl, rfl, rfl, rfl, rfl⟩
